import Mathlib

/-!
Shallow embedding of the `jap` Go package (src/jap.go): a thin client for the
JustAnotherPanel HTTP API.  Wire payloads and response bodies are modelled as
a JSON value type; `json.Marshal` of the request structures is modelled by
building the JSON object directly (field order and `omitempty` behaviour of
the Go struct tags are reproduced), and `json.Unmarshal` into each response
type is modelled by a decoder following Go's semantics for the concrete
target types (missing object keys leave the zero value; `null` leaves the
current value; mismatched kinds are errors; integers must fit in 64 bits).
The HTTP layer (`http.Client.Do` plus `io.ReadAll`) is an oracle parameter
`Transport` mapping the endpoint and serialized payload to either a transport
error or raw response bytes; bytes that are not valid JSON are `Body.invalid`.
Methods have pointer receivers in Go, so each is embedded in state-passing
style: the result records the receiver state after the call.
-/

namespace Jap

/-- A JSON value.  Numbers are restricted to integers, which covers every
value the client reads or writes (fractional literals are rejected by Go's
decoder for `int` targets anyway).  Objects are ordered field lists, matching
the order `json.Marshal` emits for a Go struct. -/
inductive Json where
  | null : Json
  | bool : Bool → Json
  | num  : Int → Json
  | str  : String → Json
  | arr  : List Json → Json
  | obj  : List (String × Json) → Json
deriving Repr

/-- A raw HTTP response body: either bytes that do not parse as JSON, or the
JSON value they parse to. -/
inductive Body where
  | invalid : Body
  | json : Json → Body
deriving Repr

/-- Field lookup in a JSON object, as Go's decoder sees it: when a key is
repeated, the later occurrence wins (each occurrence is decoded in turn and
overwrites the previous one). -/
def lookupField (k : String) : List (String × Json) → Option Json
  | [] => none
  | (k', v) :: rest =>
    match lookupField k rest with
    | some v' => some v'
    | none => if k' == k then some v else none

/-- The field names of a JSON object, in serialization order. -/
def payloadFields : Json → List (String × Json)
  | .obj fs => fs
  | _ => []

-- JAPClient is a client for the JustAnotherPanel API (src/jap.go lines 12-15).
structure JAPClient where
  key : String
  endpoint : String
deriving Repr, DecidableEq

-- New creates a new JAPClient with the given API key (src/jap.go lines 18-23).
def New (key : String) : JAPClient :=
  { key := key, endpoint := "https://justanotherpanel.com/api/v2" }

-- Service represents the structure of each service in the API response
-- (src/jap.go lines 26-36).  All field types follow the Go struct.
set_option linter.dupNamespace false in
structure Service where
  Service  : String
  Name     : String
  «Type»   : String
  Category : String
  Rate     : String
  Min      : String
  Max      : String
  Refill   : Bool
  Cancel   : Bool
deriving Repr, DecidableEq

-- OrderStatus details for an order (src/jap.go lines 181-188).
structure OrderStatus where
  Charge     : String
  StartCount : String
  Status     : String
  Remains    : String
  Currency   : String
  Error      : String
deriving Repr, DecidableEq

-- OrderStatusResponse (src/jap.go lines 98-100).  The Go field is a
-- map[string]OrderStatus; it is modelled as an association list, with the
-- nil map represented by the empty list.
structure OrderStatusResponse where
  OrderStatus : List (String × Jap.OrderStatus)
deriving Repr, DecidableEq

-- UserBalanceResponse (src/jap.go lines 191-194).
structure UserBalanceResponse where
  Balance  : String
  Currency : String
deriving Repr, DecidableEq

/-! ### Go `json.Unmarshal` semantics for the response types used -/

/-- The Go `int` lower bound (-2^63): a JSON number outside the `int` range
fails to unmarshal. -/
def int64Min : Int := -9223372036854775808

/-- The Go `int` upper bound (2^63 - 1). -/
def int64Max : Int := 9223372036854775807

/-- Error message for a body that is not valid JSON (Go syntax error). -/
def invalidJSONMsg : String := "invalid character in response body"

/-- Error message for a JSON value of the wrong kind for the target. -/
def typeMismatchMsg : String := "json: cannot unmarshal value into Go value"

/-- Decoding a JSON value into a Go `int` field: numbers in range are taken,
`null` leaves the zero value, everything else is an error. -/
def decodeIntField (j : Json) : Except String Int :=
  match j with
  | .num n => if int64Min ≤ n ∧ n ≤ int64Max then .ok n else .error typeMismatchMsg
  | .null => .ok 0
  | _ => .error typeMismatchMsg

/-- Decoding a JSON value into a Go `string` field. -/
def decodeStrField (j : Json) : Except String String :=
  match j with
  | .str s => .ok s
  | .null => .ok ""
  | _ => .error typeMismatchMsg

/-- Decoding a JSON value into a Go `bool` field. -/
def decodeBoolField (j : Json) : Except String Bool :=
  match j with
  | .bool b => .ok b
  | .null => .ok false
  | _ => .error typeMismatchMsg

/-- A possibly-missing object field decoded into a `string`: a missing key
leaves the zero value `""`. -/
def decodeStrOpt (j : Option Json) : Except String String :=
  match j with
  | none => .ok ""
  | some v => decodeStrField v

/-- A possibly-missing object field decoded into a `bool`: a missing key
leaves the zero value `false`. -/
def decodeBoolOpt (j : Option Json) : Except String Bool :=
  match j with
  | none => .ok false
  | some v => decodeBoolField v

/-- Unmarshalling one element of the `services` array into `Service`. -/
def decodeService (j : Json) : Except String Service :=
  match j with
  | .null => .ok ⟨"", "", "", "", "", "", "", false, false⟩
  | .obj fs => do
    let service ← decodeStrOpt (lookupField "service" fs)
    let name ← decodeStrOpt (lookupField "name" fs)
    let ty ← decodeStrOpt (lookupField "type" fs)
    let category ← decodeStrOpt (lookupField "category" fs)
    let rate ← decodeStrOpt (lookupField "rate" fs)
    let min ← decodeStrOpt (lookupField "min" fs)
    let max ← decodeStrOpt (lookupField "max" fs)
    let refill ← decodeBoolOpt (lookupField "refill" fs)
    let cancel ← decodeBoolOpt (lookupField "cancel" fs)
    .ok ⟨service, name, ty, category, rate, min, max, refill, cancel⟩
  | _ => .error typeMismatchMsg

/-- Unmarshalling the `ListServices` response body into `[]Service`
(src/jap.go lines 52-56): a JSON array decoded elementwise; `null` leaves
the nil slice. -/
def decodeServices (b : Body) : Except String (List Service) :=
  match b with
  | .invalid => .error invalidJSONMsg
  | .json .null => .ok []
  | .json (.arr xs) => xs.mapM decodeService
  | .json _ => .error typeMismatchMsg

/-- Unmarshalling the `AddOrder` response body into
`struct \x7b OrderID int ``json:"order"`` \x7d` (src/jap.go lines 86-92):
a JSON object whose `order` key, when present, must decode as an `int`;
a missing key leaves the zero value `0`. -/
def decodeOrderResp (b : Body) : Except String Int :=
  match b with
  | .invalid => .error invalidJSONMsg
  | .json .null => .ok 0
  | .json (.obj fs) =>
    match lookupField "order" fs with
    | none => .ok 0
    | some v => decodeIntField v
  | .json _ => .error typeMismatchMsg

/-- Unmarshalling one value of the `orderStatus` map into `OrderStatus`. -/
def decodeOrderStatus (j : Json) : Except String OrderStatus :=
  match j with
  | .null => .ok ⟨"", "", "", "", "", ""⟩
  | .obj fs => do
    let charge ← decodeStrOpt (lookupField "charge" fs)
    let startCount ← decodeStrOpt (lookupField "start_count" fs)
    let status ← decodeStrOpt (lookupField "status" fs)
    let remains ← decodeStrOpt (lookupField "remains" fs)
    let currency ← decodeStrOpt (lookupField "currency" fs)
    let err ← decodeStrOpt (lookupField "error" fs)
    .ok ⟨charge, startCount, status, remains, currency, err⟩
  | _ => .error typeMismatchMsg

/-- Unmarshalling a JSON value into `map[string]OrderStatus`: an object whose
values decode elementwise; `null` leaves the nil map. -/
def decodeOrderStatusMap (j : Json) : Except String (List (String × OrderStatus)) :=
  match j with
  | .null => .ok []
  | .obj fs => fs.mapM (fun p => do
      let v ← decodeOrderStatus p.2
      pure (p.1, v))
  | _ => .error typeMismatchMsg

/-- Unmarshalling the `GetOrderStatus` response body into
`OrderStatusResponse` (src/jap.go lines 118-122). -/
def decodeOrderStatusResp (b : Body) : Except String OrderStatusResponse :=
  match b with
  | .invalid => .error invalidJSONMsg
  | .json .null => .ok ⟨[]⟩
  | .json (.obj fs) =>
    match lookupField "orderStatus" fs with
    | none => .ok ⟨[]⟩
    | some v => do
      let m ← decodeOrderStatusMap v
      pure ⟨m⟩
  | .json _ => .error typeMismatchMsg

/-- Unmarshalling the `GetUserBalance` response body into
`UserBalanceResponse` (src/jap.go lines 141-145). -/
def decodeUserBalanceResp (b : Body) : Except String UserBalanceResponse :=
  match b with
  | .invalid => .error invalidJSONMsg
  | .json .null => .ok ⟨"", ""⟩
  | .json (.obj fs) => do
    let balance ← decodeStrOpt (lookupField "balance" fs)
    let currency ← decodeStrOpt (lookupField "currency" fs)
    .ok ⟨balance, currency⟩
  | .json _ => .error typeMismatchMsg

/-! ### The HTTP layer and the client methods -/

/-- The HTTP round trip (`http.NewRequest` + `http.Client.Do` + `io.ReadAll`
in `post`, src/jap.go lines 157-177): given the endpoint URL and the
serialized request payload, either a transport/read error or the raw
response body.  Status codes are not inspected, so they do not appear. -/
abbrev Transport := String → Json → Except String Body

/-- The result of one Go method call: the receiver state after the call
(the methods have pointer receivers), the value result, and the error
result. -/
structure GoResult (α : Type) where
  self : JAPClient
  val  : α
  err  : Option String
deriving Repr, DecidableEq

-- post is a helper method to perform POST requests for the JAPClient
-- (src/jap.go lines 151-178).  Marshalling the fixed request structures
-- cannot fail, so the only failure source is the transport oracle.
def post (c : JAPClient) (body : Json) (net : Transport) :
    JAPClient × Except String Body :=
  (c, net c.endpoint body)

/-- The payload `ListServices` serializes (src/jap.go lines 40-46). -/
def listServicesPayload (c : JAPClient) : Json :=
  Json.obj [("key", Json.str c.key), ("action", Json.str "services")]

-- ListServices retrieves the list of services from the API
-- (src/jap.go lines 39-59).
def ListServices (c : JAPClient) (net : Transport) : GoResult (List Service) :=
  match post c (listServicesPayload c) net with
  | (c1, .error e) => ⟨c1, [], some e⟩
  | (c1, .ok b) =>
    match decodeServices b with
    | .error e => ⟨c1, [], some e⟩
    | .ok response => ⟨c1, response, none⟩

/-- The payload `AddOrder` serializes (src/jap.go lines 63-79): the struct
fields in declaration order, with `runs` and `interval` carrying
`omitempty` pointer semantics — omitted exactly when the pointer is nil. -/
def addOrderPayload (c : JAPClient) (service link : String) (quantity : Int)
    (runs interval : Option Int) : Json :=
  Json.obj
    ([("key", Json.str c.key), ("action", Json.str "add"),
      ("service", Json.str service), ("link", Json.str link),
      ("quantity", Json.num quantity)]
      ++ (match runs with
          | none => []
          | some r => [("runs", Json.num r)])
      ++ (match interval with
          | none => []
          | some i => [("interval", Json.num i)]))

-- AddOrder adds an order with the given parameters and returns the order ID
-- as a string (src/jap.go lines 62-95).  `strconv.Itoa` is `Int.repr`.
def AddOrder (c : JAPClient) (service link : String) (quantity : Int)
    (runs interval : Option Int) (net : Transport) : GoResult String :=
  match post c (addOrderPayload c service link quantity runs interval) net with
  | (c1, .error e) => ⟨c1, "", some e⟩
  | (c1, .ok b) =>
    match decodeOrderResp b with
    | .error e => ⟨c1, "", some e⟩
    | .ok n => ⟨c1, Int.repr n, none⟩

/-- The payload `GetOrderStatus` serializes (src/jap.go lines 104-112). -/
def getOrderStatusPayload (c : JAPClient) (orderID : String) : Json :=
  Json.obj [("key", Json.str c.key), ("action", Json.str "status"),
    ("order", Json.str orderID)]

-- GetOrderStatus checks the status of an order with the given order ID and
-- returns the status (src/jap.go lines 103-125).
def GetOrderStatus (c : JAPClient) (orderID : String) (net : Transport) :
    GoResult OrderStatusResponse :=
  match post c (getOrderStatusPayload c orderID) net with
  | (c1, .error e) => ⟨c1, ⟨[]⟩, some e⟩
  | (c1, .ok b) =>
    match decodeOrderStatusResp b with
    | .error e => ⟨c1, ⟨[]⟩, some e⟩
    | .ok response => ⟨c1, response, none⟩

/-- The payload `GetUserBalance` serializes (src/jap.go lines 129-135). -/
def getUserBalancePayload (c : JAPClient) : Json :=
  Json.obj [("key", Json.str c.key), ("action", Json.str "balance")]

-- GetUserBalance retrieves the user's balance from the API
-- (src/jap.go lines 128-148).
def GetUserBalance (c : JAPClient) (net : Transport) :
    GoResult UserBalanceResponse :=
  match post c (getUserBalancePayload c) net with
  | (c1, .error e) => ⟨c1, ⟨"", ""⟩, some e⟩
  | (c1, .ok b) =>
    match decodeUserBalanceResp b with
    | .error e => ⟨c1, ⟨"", ""⟩, some e⟩
    | .ok response => ⟨c1, response, none⟩

-- RedditUpvote (src/jap.go lines 196-198).
def RedditUpvote (c : JAPClient) (link : String) (quantity : Int)
    (net : Transport) : GoResult String :=
  AddOrder c "6228" link quantity none none net

/-- The canned `ListServices` response body from the spec's testable
properties. -/
def cannedServicesBody : Body :=
  Body.json (Json.arr [Json.obj [("service", Json.str "1"),
    ("name", Json.str "Test"), ("type", Json.str "Default"),
    ("category", Json.str "Test"), ("rate", Json.str "1.00"),
    ("min", Json.str "10"), ("max", Json.str "1000"),
    ("refill", Json.bool true), ("cancel", Json.bool false)]])

/-! ### Claim theorems -/

/-- C2: for every service id, link, and quantity, `AddOrder` with `runs = nil`
and `interval = nil` serializes a wire payload whose field names are exactly
`key`, `action`, `service`, `link`, `quantity` — the keys `runs` and
`interval` are entirely absent, not present as null or zero. -/
theorem addOrder_omits_runs_interval (c : JAPClient) (service link : String)
    (quantity : Int) :
    (payloadFields (addOrderPayload c service link quantity none none)).map
        Prod.fst = ["key", "action", "service", "link", "quantity"]
    ∧ lookupField "runs"
        (payloadFields (addOrderPayload c service link quantity none none)) = none
    ∧ lookupField "interval"
        (payloadFields (addOrderPayload c service link quantity none none)) = none :=
  ⟨rfl, rfl, rfl⟩

/-- C3: for every service id, link, quantity, and integers r and i, `AddOrder`
with `runs` pointing to r and `interval` pointing to i serializes a wire
payload whose `runs` field equals r and whose `interval` field equals i. -/
theorem addOrder_includes_runs_interval (c : JAPClient) (service link : String)
    (quantity r i : Int) :
    lookupField "runs"
        (payloadFields (addOrderPayload c service link quantity (some r) (some i)))
      = some (Json.num r)
    ∧ lookupField "interval"
        (payloadFields (addOrderPayload c service link quantity (some r) (some i)))
      = some (Json.num i) :=
  ⟨rfl, rfl⟩

/-- C5: for every link and quantity, `RedditUpvote` behaves exactly as
`AddOrder` called with the hard-coded service identifier "6228", that link,
that quantity, and nil for both runs and interval: same outgoing payload,
same result. -/
theorem redditUpvote_eq_addOrder (c : JAPClient) (link : String)
    (quantity : Int) (net : Transport) :
    RedditUpvote c link quantity net
      = AddOrder c "6228" link quantity none none net :=
  rfl

/-- C6: for every client, `GetOrderStatus "123"` serializes an outgoing
request payload containing exactly the fields `key` (the client's key),
`action = "status"`, `order = "123"`, and no others. -/
theorem getOrderStatus_payload_exact (c : JAPClient) :
    getOrderStatusPayload c "123"
      = Json.obj [("key", Json.str c.key), ("action", Json.str "status"),
          ("order", Json.str "123")] :=
  rfl

/-- C7: given the canned services response body, `ListServices` returns
without error a one-element sequence whose single `Service` has
`Refill = true`, `Cancel = false`, and `Min` equal to the string "10". -/
theorem listServices_canned_response (c : JAPClient) :
    (ListServices c (fun _ _ => Except.ok cannedServicesBody)).err = none
    ∧ (ListServices c (fun _ _ => Except.ok cannedServicesBody)).val
        = [⟨"1", "Test", "Default", "Test", "1.00", "10", "1000", true, false⟩]
    ∧ ((ListServices c (fun _ _ => Except.ok cannedServicesBody)).val.map
        (fun s => (s.Refill, s.Cancel, s.Min))) = [(true, false, "10")] :=
  ⟨rfl, rfl, rfl⟩

/-- C10: `AddOrder` imposes no precondition on the quantity: for every
integer quantity (including zero and negative values) and any setting of the
optional parameters, the outgoing payload carries the `quantity` field with
that integer unchanged, and a call over a successful transport returns
without any client-side validation error. -/
theorem addOrder_no_quantity_validation (c : JAPClient) (service link : String)
    (quantity : Int) (runs interval : Option Int) :
    lookupField "quantity"
        (payloadFields (addOrderPayload c service link quantity runs interval))
      = some (Json.num quantity)
    ∧ (AddOrder c service link quantity runs interval
        (fun _ _ => Except.ok (Body.json (Json.obj [("order", Json.num 1)])))).err
      = none := by
  cases runs <;> cases interval <;> exact ⟨rfl, rfl⟩

/-- C4: whenever the response body is a JSON object whose `order` field is
the integer n (within the Go `int` range, as any decodable value is),
`AddOrder` returns the decimal string representation of n, no error, and an
unchanged client. -/
theorem addOrder_returns_order_string (c : JAPClient) (service link : String)
    (quantity : Int) (runs interval : Option Int) (n : Int)
    (hlo : int64Min ≤ n) (hhi : n ≤ int64Max) :
    AddOrder c service link quantity runs interval
        (fun _ _ => Except.ok (Body.json (Json.obj [("order", Json.num n)])))
      = ⟨c, Int.repr n, none⟩ := by
  simp [AddOrder, post, decodeOrderResp, lookupField, decodeIntField, hlo, hhi]

/-- C4 witness: given the response body `\x7b"order": 555\x7d`, `AddOrder`
returns the string "555" and no error. -/
theorem addOrder_returns_order_string_witness :
    AddOrder (New "k") "1" "https://example.com/p" 10 none none
        (fun _ _ => Except.ok (Body.json (Json.obj [("order", Json.num 555)])))
      = ⟨New "k", "555", none⟩ := by
  have h := addOrder_returns_order_string (New "k") "1" "https://example.com/p"
    10 none none 555 (by decide) (by decide)
  exact h

/-- C1 counterexample: on the response body `\x7b\x7d` — valid JSON lacking
the `order` field — `AddOrder` does NOT return an error: it returns the
string "0" with a nil error, because Go's decoder leaves the zero value for
a missing key. -/
theorem addOrder_missing_order_counterexample :
    (AddOrder (New "k") "1" "https://example.com/p" 10 none none
        (fun _ _ => Except.ok (Body.json (Json.obj [])))).err = none
    ∧ (AddOrder (New "k") "1" "https://example.com/p" 10 none none
        (fun _ _ => Except.ok (Body.json (Json.obj [])))).val = "0" :=
  ⟨rfl, rfl⟩

/-- C1 amended: `AddOrder` returns an error (with empty order-id string)
whenever the HTTP transport fails or the response body is not valid JSON;
but a valid JSON object lacking the `order` field is not an error: the field
deserializes to the zero value and `AddOrder` returns the string "0" with no
error. -/
theorem addOrder_error_cases (c : JAPClient) (service link : String)
    (quantity : Int) (runs interval : Option Int) (net : Transport) :
    (∀ e, net c.endpoint (addOrderPayload c service link quantity runs interval)
          = Except.error e →
        AddOrder c service link quantity runs interval net = ⟨c, "", some e⟩)
    ∧ (net c.endpoint (addOrderPayload c service link quantity runs interval)
          = Except.ok Body.invalid →
        AddOrder c service link quantity runs interval net
          = ⟨c, "", some invalidJSONMsg⟩)
    ∧ (∀ fs, net c.endpoint (addOrderPayload c service link quantity runs interval)
          = Except.ok (Body.json (Json.obj fs)) →
        lookupField "order" fs = none →
        AddOrder c service link quantity runs interval net = ⟨c, "0", none⟩) := by
  refine ⟨?_, ?_, ?_⟩
  · intro e h
    simp [AddOrder, post, h]
  · intro h
    simp [AddOrder, post, h, decodeOrderResp]
  · intro fs h hmiss
    simp [AddOrder, post, h, decodeOrderResp, hmiss]
    rfl

/-- C1 amended witness: concrete runs of the three cases — a transport
failure, a non-JSON body, and a valid JSON object without `order`. -/
theorem addOrder_error_cases_witness :
    AddOrder (New "k") "1" "https://example.com/p" 5 none none
        (fun _ _ => Except.error "dial tcp: connection refused")
      = ⟨New "k", "", some "dial tcp: connection refused"⟩
    ∧ AddOrder (New "k") "1" "https://example.com/p" 5 none none
        (fun _ _ => Except.ok Body.invalid)
      = ⟨New "k", "", some invalidJSONMsg⟩
    ∧ AddOrder (New "k") "1" "https://example.com/p" 5 none none
        (fun _ _ => Except.ok (Body.json (Json.obj [("error", Json.str "bad key")])))
      = ⟨New "k", "0", none⟩ :=
  ⟨(addOrder_error_cases (New "k") "1" "https://example.com/p" 5 none none
      (fun _ _ => Except.error "dial tcp: connection refused")).1
      "dial tcp: connection refused" rfl,
   (addOrder_error_cases (New "k") "1" "https://example.com/p" 5 none none
      (fun _ _ => Except.ok Body.invalid)).2.1 rfl,
   (addOrder_error_cases (New "k") "1" "https://example.com/p" 5 none none
      (fun _ _ => Except.ok (Body.json (Json.obj [("error", Json.str "bad key")])))).2.2
      [("error", Json.str "bad key")] rfl rfl⟩

/-- C8: the client is immutable: every public operation leaves the receiver
— in particular its key and endpoint fields — exactly as it was before the
call, for every transport outcome. -/
theorem client_immutable (c : JAPClient) (net : Transport)
    (service link orderID : String) (quantity : Int)
    (runs interval : Option Int) :
    (ListServices c net).self = c
    ∧ (AddOrder c service link quantity runs interval net).self = c
    ∧ (GetOrderStatus c orderID net).self = c
    ∧ (GetUserBalance c net).self = c
    ∧ (RedditUpvote c link quantity net).self = c := by
  refine ⟨?_, ?_, ?_, ?_, ?_⟩
  · unfold ListServices post
    rcases net c.endpoint (listServicesPayload c) with e | b
    · rfl
    · rcases hd : decodeServices b with e | v <;> simp [hd]
  · unfold AddOrder post
    rcases net c.endpoint (addOrderPayload c service link quantity runs interval)
      with e | b
    · rfl
    · rcases hd : decodeOrderResp b with e | n <;> simp [hd]
  · unfold GetOrderStatus post
    rcases net c.endpoint (getOrderStatusPayload c orderID) with e | b
    · rfl
    · rcases hd : decodeOrderStatusResp b with e | v <;> simp [hd]
  · unfold GetUserBalance post
    rcases net c.endpoint (getUserBalancePayload c) with e | b
    · rfl
    · rcases hd : decodeUserBalanceResp b with e | v <;> simp [hd]
  · unfold RedditUpvote AddOrder post
    rcases net c.endpoint (addOrderPayload c "6228" link quantity none none)
      with e | b
    · rfl
    · rcases hd : decodeOrderResp b with e | n <;> simp [hd]

/-- C9: whenever a public operation returns an error, its companion result is
the zero value of its result type: `ListServices` the nil slice,
`AddOrder` the empty string, `GetOrderStatus` a response with the nil map,
and `GetUserBalance` a response with empty balance and currency. -/
theorem zero_value_on_error (c : JAPClient) (net : Transport)
    (service link orderID : String) (quantity : Int)
    (runs interval : Option Int) :
    ((ListServices c net).err ≠ none → (ListServices c net).val = [])
    ∧ ((AddOrder c service link quantity runs interval net).err ≠ none →
        (AddOrder c service link quantity runs interval net).val = "")
    ∧ ((GetOrderStatus c orderID net).err ≠ none →
        (GetOrderStatus c orderID net).val = ⟨[]⟩)
    ∧ ((GetUserBalance c net).err ≠ none →
        (GetUserBalance c net).val = ⟨"", ""⟩) := by
  refine ⟨?_, ?_, ?_, ?_⟩
  · unfold ListServices post
    rcases net c.endpoint (listServicesPayload c) with e | b
    · intro _; rfl
    · rcases hd : decodeServices b with e | v
      · intro _; simp [hd]
      · intro h; exact absurd (by simp [hd]) h
  · unfold AddOrder post
    rcases net c.endpoint (addOrderPayload c service link quantity runs interval)
      with e | b
    · intro _; rfl
    · rcases hd : decodeOrderResp b with e | n
      · intro _; simp [hd]
      · intro h; exact absurd (by simp [hd]) h
  · unfold GetOrderStatus post
    rcases net c.endpoint (getOrderStatusPayload c orderID) with e | b
    · intro _; rfl
    · rcases hd : decodeOrderStatusResp b with e | v
      · intro _; simp [hd]
      · intro h; exact absurd (by simp [hd]) h
  · unfold GetUserBalance post
    rcases net c.endpoint (getUserBalancePayload c) with e | b
    · intro _; rfl
    · rcases hd : decodeUserBalanceResp b with e | v
      · intro _; simp [hd]
      · intro h; exact absurd (by simp [hd]) h

/-- C9 witness: with a failing transport, each operation returns its zero
value alongside the error. -/
theorem zero_value_on_error_witness :
    (ListServices (New "k") (fun _ _ => Except.error "boom")).val = []
    ∧ (AddOrder (New "k") "1" "https://example.com/p" 5 none none
        (fun _ _ => Except.error "boom")).val = ""
    ∧ (GetOrderStatus (New "k") "123" (fun _ _ => Except.error "boom")).val
        = ⟨[]⟩
    ∧ (GetUserBalance (New "k") (fun _ _ => Except.error "boom")).val
        = ⟨"", ""⟩ :=
  ⟨(zero_value_on_error (New "k") (fun _ _ => Except.error "boom")
      "1" "https://example.com/p" "123" 5 none none).1 (by decide),
   (zero_value_on_error (New "k") (fun _ _ => Except.error "boom")
      "1" "https://example.com/p" "123" 5 none none).2.1 (by decide),
   (zero_value_on_error (New "k") (fun _ _ => Except.error "boom")
      "1" "https://example.com/p" "123" 5 none none).2.2.1 (by decide),
   (zero_value_on_error (New "k") (fun _ _ => Except.error "boom")
      "1" "https://example.com/p" "123" 5 none none).2.2.2 (by decide)⟩

end Jap
